import Mathlib

/-!
Shallow embedding of `qiskit/unroll/_simulatorbackend.py` (class
`SimulatorBackend`), the unroller backend that lowers a circuit into a flat
list of operation records with explicit matrices.

Modelling conventions:
* Python `dict` (insertion-ordered, assignment overwrites an existing key in
  place) is modelled as an association list with `dictSet` / `dictGet`
  mirroring `d[k] = v` and `d.get(k)` (the latter returning `None`, i.e.
  `Option.none`, on a miss).
* Each callback that can raise is modelled as a function
  `... → SimulatorBackend → SimulatorBackend × Option PyError`: the returned
  state is the state of the Python object after the call (Python exceptions
  do not roll back mutations already performed), and the second component is
  the exception that propagated, if any.  Callbacks that cannot raise return
  the new state directly.
* Floating point parameters are modelled as real numbers; the complex
  matrices computed by `numpy` are modelled as `List (List ℂ)` over
  `Real.cos` / `Real.sin` / `Complex.exp`.
* The gate name string `"U(%s,%s,%s)"` produced by decimal formatting of the
  three parameters (`self._fs`, fixed precision) is modelled as the
  constructor `GateName.U theta phi lam` carrying the parameters themselves:
  decimal rendering of floats is a presentation detail.
* `self.trace`, `self.prec`, `self.printed_gates` and the `print` calls only
  affect the diagnostic side channel and are omitted; `version` and
  `set_trace` are likewise trace-only and omitted.  `barrier` is the no-op it
  is in the source.
* Of a gate's AST node (`gatedata`), the backend only ever reads the
  `"opaque"` entry, so `GateData` keeps just that boolean (field `opacity`).
-/

/-- Python `d.get(k)`: first (and only, since `dictSet` overwrites in place)
binding of `k`, or `none`. -/
def dictGet {κ ν : Type} [DecidableEq κ] (m : List (κ × ν)) (k : κ) : Option ν :=
  match m with
  | [] => none
  | (k1, v1) :: rest => if k1 = k then some v1 else dictGet rest k

/-- Python `d[k] = v`: overwrite the existing binding of `k` in place, else
append a new binding at the end (insertion order). -/
def dictSet {κ ν : Type} [DecidableEq κ] (m : List (κ × ν)) (k : κ) (v : ν) : List (κ × ν) :=
  match m with
  | [] => [(k, v)]
  | (k1, v1) :: rest => if k1 = k then (k, v) :: rest else (k1, v1) :: dictSet rest k v

/-- A bit reference `(regname, idx)` as passed by the traversal driver. -/
abbrev BitRef := String × Nat

/-- Gate record names: `"CX"`, or the formatted `"U(θ,φ,λ)"` string carrying
its three parameters. -/
inductive GateName where
  | U (theta phi lam : ℝ)
  | CX

/-- An entry of `self.circuit['qasm']`: a `gate` / `measure` / `reset` dict.
Index lists hold `Option Nat` because the source stores the result of
`dict.get`, which is `None` for an unregistered bit reference. -/
inductive OpRecord where
  | gate (gate_size : Nat) (matrix : List (List ℂ)) (name : GateName)
      (qubit_indices : List (Option Nat))
  | measure (qubit_indices : List (Option Nat)) (cbit_indices : List (Option Nat))
  | reset (qubit_indices : List (Option Nat))

/-- The slice of a gate's AST node that the backend consults:
`gatedata["opaque"]`. -/
structure GateData where
  opacity : Bool

/-- Exceptions the Python methods can raise: `BackendException(msg)` or a
`KeyError` from `self.gates[name]` on an undefined gate. -/
inductive PyError where
  | backendException (msg : String)
  | keyError (name : String)
  deriving DecidableEq

/-- The fixed matrix appended by `cx`:
`np.array([[1,0,0,0],[0,0,0,1],[0,0,1,0],[0,1,0,0]])`. -/
def cxMatrix : List (List ℂ) :=
  [[1, 0, 0, 0], [0, 0, 0, 1], [0, 0, 1, 0], [0, 1, 0, 0]]

/-- The matrix computed by `u`:
`[[cos(θ/2), -exp(iλ)sin(θ/2)], [exp(iφ)sin(θ/2), exp(iφ+iλ)cos(θ/2)]]`. -/
noncomputable def uMatrix (theta phi lam : ℝ) : List (List ℂ) :=
  [[(Real.cos (theta / 2) : ℂ),
    -Complex.exp (Complex.I * lam) * (Real.sin (theta / 2) : ℂ)],
   [Complex.exp (Complex.I * phi) * (Real.sin (theta / 2) : ℂ),
    Complex.exp (Complex.I * phi + Complex.I * lam) * (Real.cos (theta / 2) : ℂ)]]

/-- Mutable state of a `SimulatorBackend` object.  `operation_order` models
`self._operation_order`; `self.circuit['number_of_operations']` is assigned
immediately after every increment and is therefore the same number, and
likewise `circuit['number_of_qubits']` / `circuit['number_of_cbits']` and the
two order dicts mirror the underscore fields, so each is kept once. -/
structure SimulatorBackend where
  qasm : List OpRecord
  number_of_qubits : Nat
  number_of_cbits : Nat
  qubit_order : List (BitRef × Nat)
  cbit_order : List (BitRef × Nat)
  operation_order : Nat
  creg : Option String
  cval : Option Int
  gates : List (String × GateData)
  basis : List String
  listen : Bool
  in_gate : String

namespace SimulatorBackend

/-- `__init__(self, basis=None)`.  `if basis: self.basis = basis else []` —
Python truthiness sends both `None` and `[]` to `[]`, so the caller-supplied
list is taken as is (an empty list stays empty). -/
def init (basis : List String) : SimulatorBackend :=
  { qasm := [], number_of_qubits := 0, number_of_cbits := 0,
    qubit_order := [], cbit_order := [], operation_order := 0,
    creg := none, cval := none, gates := [], basis := basis,
    listen := true, in_gate := "" }

/-- The loop `for j in range(size): order[(name, j)] = base + j`. -/
def registerBlock (name : String) (size base : Nat)
    (m : List (BitRef × Nat)) : List (BitRef × Nat) :=
  (List.range size).foldl (fun acc j => dictSet acc (name, j) (base + j)) m

/-- `new_qreg(name, size)`.  The `assert size >= 0` cannot fire for `Nat`. -/
def new_qreg (name : String) (size : Nat) (s : SimulatorBackend) : SimulatorBackend :=
  { s with
    qubit_order := registerBlock name size s.number_of_qubits s.qubit_order,
    number_of_qubits := s.number_of_qubits + size }

/-- `new_creg(name, size)`. -/
def new_creg (name : String) (size : Nat) (s : SimulatorBackend) : SimulatorBackend :=
  { s with
    cbit_order := registerBlock name size s.number_of_cbits s.cbit_order,
    number_of_cbits := s.number_of_cbits + size }

/-- `define_gate(name, gatedata)`: `self.gates[name] = gatedata`. -/
def define_gate (name : String) (gatedata : GateData) (s : SimulatorBackend) :
    SimulatorBackend :=
  { s with gates := dictSet s.gates name gatedata }

/-- `set_basis(basis)`. -/
def set_basis (basis : List String) (s : SimulatorBackend) : SimulatorBackend :=
  { s with basis := basis }

/-- `u(arg, qubit)`: fundamental single qubit gate.  Mirrors the source
statement order: nothing while not listening; register `"U"` in the basis;
raise `BackendException` if a condition is active (the basis mutation
stands); otherwise resolve the index, bump the operation count and append
the gate record. -/
noncomputable def u (arg : ℝ × ℝ × ℝ) (qubit : BitRef) (s : SimulatorBackend) :
    SimulatorBackend × Option PyError :=
  if s.listen then
    let s1 := { s with basis := if s.basis.contains "U" then s.basis else s.basis ++ ["U"] }
    if s1.creg.isSome then
      (s1, some (PyError.backendException "UnitarySimulator does not support if"))
    else
      let qubit_indices := [dictGet s1.qubit_order qubit]
      ({ s1 with
          operation_order := s1.operation_order + 1,
          qasm := s1.qasm ++ [OpRecord.gate 1 (uMatrix arg.1 arg.2.1 arg.2.2)
            (GateName.U arg.1 arg.2.1 arg.2.2) qubit_indices] }, none)
  else (s, none)

/-- `cx(qubit0, qubit1)`: fundamental two qubit gate, same shape as `u` with
the fixed matrix and the two resolved indices in call order. -/
def cx (qubit0 qubit1 : BitRef) (s : SimulatorBackend) :
    SimulatorBackend × Option PyError :=
  if s.listen then
    let s1 := { s with basis := if s.basis.contains "CX" then s.basis else s.basis ++ ["CX"] }
    if s1.creg.isSome then
      (s1, some (PyError.backendException "UnitarySimulator does not support if"))
    else
      let qubit_indices := [dictGet s1.qubit_order qubit0, dictGet s1.qubit_order qubit1]
      ({ s1 with
          operation_order := s1.operation_order + 1,
          qasm := s1.qasm ++ [OpRecord.gate 2 cxMatrix GateName.CX qubit_indices] }, none)
  else (s, none)

/-- `measure(qubit, cbit)`: no listening or condition check; always bumps the
count and appends the record. -/
def measure (qubit cbit : BitRef) (s : SimulatorBackend) :
    SimulatorBackend × Option PyError :=
  ({ s with
      operation_order := s.operation_order + 1,
      qasm := s.qasm ++ [OpRecord.measure [dictGet s.qubit_order qubit]
        [dictGet s.cbit_order cbit]] }, none)

/-- `reset(qubit)`: no listening or condition check; always bumps the count
and appends the record. -/
def reset (qubit : BitRef) (s : SimulatorBackend) :
    SimulatorBackend × Option PyError :=
  ({ s with
      operation_order := s.operation_order + 1,
      qasm := s.qasm ++ [OpRecord.reset [dictGet s.qubit_order qubit]] }, none)

/-- `barrier(qubitlists)`: ignored. -/
def barrier (qubitlists : List (List BitRef)) (s : SimulatorBackend) :
    SimulatorBackend :=
  s

/-- `set_condition(creg, cval)`. -/
def set_condition (creg : String) (cval : Int) (s : SimulatorBackend) :
    SimulatorBackend :=
  { s with creg := some creg, cval := some cval }

/-- `drop_condition()`. -/
def drop_condition (s : SimulatorBackend) : SimulatorBackend :=
  { s with creg := none, cval := none }

/-- `start_gate(name, args, qubits)`.  First `if`: while listening with
`name` not in the basis, `self.gates[name]` is evaluated (a `KeyError` on an
undefined gate) and an opaque gate raises; a defined non-opaque gate falls
through and, `name` not being in the basis, the call returns with no state
change.  Second `if`: while listening with `name` in the basis, the state is
muted (`in_gate`, `listen`) before the condition guard, so the guard's raise
leaves the backend muted. -/
def start_gate (name : String) (args : List ℝ) (qubits : List BitRef)
    (s : SimulatorBackend) : SimulatorBackend × Option PyError :=
  if s.listen && !(s.basis.contains name) then
    match dictGet s.gates name with
    | none => (s, some (PyError.keyError name))
    | some gd =>
      if gd.opacity then
        (s, some (PyError.backendException ("opaque gate " ++ name ++ " not in basis")))
      else (s, none)
  else if s.listen && s.basis.contains name then
    let s1 := { s with in_gate := name, listen := false }
    if s1.creg.isSome then
      (s1, some (PyError.backendException "UnitarySimulator does not support if"))
    else (s1, none)
  else (s, none)

/-- `end_gate(name, args, qubits)`: re-arm listening when `name` matches the
current mute marker, else no state change. -/
def end_gate (name : String) (args : List ℝ) (qubits : List BitRef)
    (s : SimulatorBackend) : SimulatorBackend :=
  if name = s.in_gate then { s with in_gate := "", listen := true } else s

end SimulatorBackend

/-!
Spec-side definitions, written from the spec's words rather than the source,
to compare against the source definitions above.
-/

/-- The 4×4 matrix of a permutation `p` of `Fin 4` written as a basis-index
map: entry `(i, j)` is `1` when `p` sends basis state `j` to basis state `i`. -/
def permMatrix4 (p : Nat → Nat) : List (List ℂ) :=
  (List.range 4).map fun i => (List.range 4).map fun j => if p j = i then 1 else 0

/-- Modelled from the spec: the basis-index action of the controlled-NOT "in
the computational basis, control as the high-order bit" — the control is bit
1 of the 2-bit basis index `j` and the target is bit 0; the target flips when
the control is set. -/
def cnotPermHigh (j : Nat) : Nat :=
  2 * (j / 2) + (if j / 2 = 1 then 1 - j % 2 else j % 2)

/-- The controlled-NOT matrix with the control as the high-order bit, per the
spec's words. -/
def cnotMatrixHigh : List (List ℂ) := permMatrix4 cnotPermHigh

/-- The basis-index action of the controlled-NOT with the control as the
LOW-order bit: the control is bit 0 of the basis index `j`, the target bit 1. -/
def cnotPermLow (j : Nat) : Nat :=
  2 * (if j % 2 = 1 then 1 - j / 2 else j / 2) + j % 2

/-- The controlled-NOT matrix with the control as the low-order bit. -/
def cnotMatrixLow : List (List ℂ) := permMatrix4 cnotPermLow

/-- Modelled from the spec: the `apply_u` matrix as the spec writes it,
`[[cos(θ/2), -e^{iλ}sin(θ/2)], [e^{iφ}sin(θ/2), e^{i(φ+λ)}cos(θ/2)]]`. -/
noncomputable def specUMatrix (theta phi lam : ℝ) : List (List ℂ) :=
  [[(Real.cos (theta / 2) : ℂ),
    -Complex.exp (Complex.I * lam) * (Real.sin (theta / 2) : ℂ)],
   [Complex.exp (Complex.I * phi) * (Real.sin (theta / 2) : ℂ),
    Complex.exp (Complex.I * ((phi : ℂ) + (lam : ℂ))) * (Real.cos (theta / 2) : ℂ)]]

/-- A backend that is listening, has gate `"g"` defined non-opaque and not in
the basis set, and has an active classical condition. -/
def condNonBasisState : SimulatorBackend :=
  SimulatorBackend.set_condition "c" 1
    (SimulatorBackend.define_gate "g" ⟨false⟩ (SimulatorBackend.init []))

/-!
Helper lemmas about the Python-dict model and the registration loop.
-/

theorem dictGet_dictSet_self {κ ν : Type} [DecidableEq κ]
    (m : List (κ × ν)) (k : κ) (v : ν) :
    dictGet (dictSet m k v) k = some v := by
  induction m with
  | nil => simp [dictGet, dictSet]
  | cons p rest ih =>
    obtain ⟨k1, v1⟩ := p
    by_cases h : k1 = k
    · simp [dictGet, dictSet, h]
    · simp [dictGet, dictSet, h, ih]

theorem dictGet_dictSet_ne {κ ν : Type} [DecidableEq κ]
    (m : List (κ × ν)) (k k2 : κ) (v : ν) (hne : k2 ≠ k) :
    dictGet (dictSet m k v) k2 = dictGet m k2 := by
  induction m with
  | nil => simp [dictGet, dictSet, Ne.symm hne]
  | cons p rest ih =>
    obtain ⟨k1, v1⟩ := p
    by_cases h : k1 = k
    · subst h
      simp [dictGet, dictSet, Ne.symm hne]
    · simp only [dictSet, if_neg h]
      by_cases h2 : k1 = k2
      · simp [dictGet, h2]
      · simp [dictGet, h2, ih]

theorem registerBlock_succ (name : String) (n base : Nat) (m : List (BitRef × Nat)) :
    SimulatorBackend.registerBlock name (n + 1) base m =
      dictSet (SimulatorBackend.registerBlock name n base m) (name, n) (base + n) := by
  simp [SimulatorBackend.registerBlock, List.range_succ]

theorem registerBlock_get_lt (name : String) (size base : Nat)
    (m : List (BitRef × Nat)) (j : Nat) (hj : j < size) :
    dictGet (SimulatorBackend.registerBlock name size base m) (name, j) =
      some (base + j) := by
  induction size with
  | zero => exact absurd hj (Nat.not_lt_zero j)
  | succ n ih =>
    rw [registerBlock_succ]
    rcases Nat.lt_succ_iff_lt_or_eq.mp hj with h | h
    · rw [dictGet_dictSet_ne _ _ _ _ (by simp [Nat.ne_of_lt h])]
      exact ih h
    · subst h
      exact dictGet_dictSet_self _ _ _

theorem registerBlock_get_other (name : String) (size base : Nat)
    (m : List (BitRef × Nat)) (k : BitRef) (hk : k.1 ≠ name) :
    dictGet (SimulatorBackend.registerBlock name size base m) k = dictGet m k := by
  induction size with
  | zero => simp [SimulatorBackend.registerBlock]
  | succ n ih =>
    rw [registerBlock_succ]
    rw [dictGet_dictSet_ne _ _ _ _ (by intro h; exact hk (by rw [h]))]
    exact ih

theorem uMatrix_eq_specUMatrix (theta phi lam : ℝ) :
    uMatrix theta phi lam = specUMatrix theta phi lam := by
  simp [uMatrix, specUMatrix, mul_add]

theorem uMatrix_zero : uMatrix 0 0 0 = [[1, 0], [0, 1]] := by
  simp [uMatrix]

theorem cxMatrix_eq_cnotMatrixLow : cxMatrix = cnotMatrixLow := by
  simp [cxMatrix, cnotMatrixLow, permMatrix4, cnotPermLow, List.range_succ]

theorem cnotMatrixHigh_explicit :
    cnotMatrixHigh = [[1, 0, 0, 0], [0, 1, 0, 0], [0, 0, 0, 1], [0, 0, 1, 0]] := by
  simp [cnotMatrixHigh, permMatrix4, cnotPermHigh, List.range_succ]

theorem cxMatrix_ne_cnotMatrixHigh : cxMatrix ≠ cnotMatrixHigh := by
  rw [cnotMatrixHigh_explicit]
  intro h
  simp [cxMatrix] at h

/-!
Claim theorems.
-/

/-- Claim C5: from a fresh backend, registering qreg "a" of size 2 and then
qreg "b" of size 3 assigns indices ("a",0)=0, ("a",1)=1, ("b",0)=2,
("b",1)=3, ("b",2)=4, with a total qubit count of 5 — the index space is
dense, contiguous and order-stable across the two registers. -/
theorem register_dense_contiguous_example :
    (SimulatorBackend.new_qreg "b" 3 (SimulatorBackend.new_qreg "a" 2
      (SimulatorBackend.init []))).number_of_qubits = 5 ∧
    dictGet (SimulatorBackend.new_qreg "b" 3 (SimulatorBackend.new_qreg "a" 2
      (SimulatorBackend.init []))).qubit_order ("a", 0) = some 0 ∧
    dictGet (SimulatorBackend.new_qreg "b" 3 (SimulatorBackend.new_qreg "a" 2
      (SimulatorBackend.init []))).qubit_order ("a", 1) = some 1 ∧
    dictGet (SimulatorBackend.new_qreg "b" 3 (SimulatorBackend.new_qreg "a" 2
      (SimulatorBackend.init []))).qubit_order ("b", 0) = some 2 ∧
    dictGet (SimulatorBackend.new_qreg "b" 3 (SimulatorBackend.new_qreg "a" 2
      (SimulatorBackend.init []))).qubit_order ("b", 1) = some 3 ∧
    dictGet (SimulatorBackend.new_qreg "b" 3 (SimulatorBackend.new_qreg "a" 2
      (SimulatorBackend.init []))).qubit_order ("b", 2) = some 4 :=
  ⟨rfl, rfl, rfl, rfl, rfl, rfl⟩

/-- Claim C2, counterexample: registering qreg "a" of size 1 twice reassigns
the key ("a",0) — it maps to 0 after the first call and to 1 after the
second, so an index once assigned to a (name, offset) key IS reassigned. -/
theorem qreg_reregister_reassigns_key_counterexample :
    dictGet (SimulatorBackend.new_qreg "a" 1
      (SimulatorBackend.init [])).qubit_order ("a", 0) = some 0 ∧
    dictGet (SimulatorBackend.new_qreg "a" 1 (SimulatorBackend.new_qreg "a" 1
      (SimulatorBackend.init []))).qubit_order ("a", 0) = some 1 ∧
    (some 1 : Option Nat) ≠ some 0 :=
  ⟨rfl, rfl, by decide⟩

/-- Claim C2, amended: every register call allocates a fresh block — the
count grows by `size` and key (name, j) now maps to the fresh index
old-count + j — and keys of other register names keep their assignments; but
re-registering an already-used name OVERWRITES that name's (name, offset)
keys to point into the new block, replacing (not keeping alongside) the
indices previously assigned to those keys; the old index values become
unreferenced and are never handed to any other key.  Likewise for classical
registers. -/
theorem register_fresh_block_overwrites (s : SimulatorBackend) (name : String)
    (size j : Nat) (k : BitRef) (hj : j < size) (hk : k.1 ≠ name) :
    (SimulatorBackend.new_qreg name size s).number_of_qubits =
      s.number_of_qubits + size ∧
    dictGet (SimulatorBackend.new_qreg name size s).qubit_order (name, j) =
      some (s.number_of_qubits + j) ∧
    dictGet (SimulatorBackend.new_qreg name size s).qubit_order k =
      dictGet s.qubit_order k ∧
    (SimulatorBackend.new_creg name size s).number_of_cbits =
      s.number_of_cbits + size ∧
    dictGet (SimulatorBackend.new_creg name size s).cbit_order (name, j) =
      some (s.number_of_cbits + j) ∧
    dictGet (SimulatorBackend.new_creg name size s).cbit_order k =
      dictGet s.cbit_order k := by
  refine ⟨rfl, ?_, ?_, rfl, ?_, ?_⟩
  · exact registerBlock_get_lt name size s.number_of_qubits s.qubit_order j hj
  · exact registerBlock_get_other name size s.number_of_qubits s.qubit_order k hk
  · exact registerBlock_get_lt name size s.number_of_cbits s.cbit_order j hj
  · exact registerBlock_get_other name size s.number_of_cbits s.cbit_order k hk

/-- Witness for the amended C2 theorem at a concrete input. -/
theorem register_fresh_block_overwrites_witness :
    (0 < 1 ∧ (("b", 0) : BitRef).1 ≠ "a") ∧
    ((SimulatorBackend.new_qreg "a" 1 (SimulatorBackend.init [])).number_of_qubits =
      (SimulatorBackend.init []).number_of_qubits + 1 ∧
    dictGet (SimulatorBackend.new_qreg "a" 1 (SimulatorBackend.init [])).qubit_order
      ("a", 0) = some ((SimulatorBackend.init []).number_of_qubits + 0) ∧
    dictGet (SimulatorBackend.new_qreg "a" 1 (SimulatorBackend.init [])).qubit_order
      ("b", 0) = dictGet (SimulatorBackend.init []).qubit_order ("b", 0) ∧
    (SimulatorBackend.new_creg "a" 1 (SimulatorBackend.init [])).number_of_cbits =
      (SimulatorBackend.init []).number_of_cbits + 1 ∧
    dictGet (SimulatorBackend.new_creg "a" 1 (SimulatorBackend.init [])).cbit_order
      ("a", 0) = some ((SimulatorBackend.init []).number_of_cbits + 0) ∧
    dictGet (SimulatorBackend.new_creg "a" 1 (SimulatorBackend.init [])).cbit_order
      ("b", 0) = dictGet (SimulatorBackend.init []).cbit_order ("b", 0)) :=
  ⟨⟨by decide, by decide⟩,
   register_fresh_block_overwrites (SimulatorBackend.init []) "a" 1 0 ("b", 0)
     (by decide) (by decide)⟩

/-- Claim C8: for every backend state — muted or not, condition active or
not — `measure` and `reset` never fail, append exactly one record of the
corresponding type, and increment the operation count by exactly 1. -/
theorem measure_reset_always_record (s : SimulatorBackend) (q cb : BitRef) :
    (SimulatorBackend.measure q cb s).2 = none ∧
    (SimulatorBackend.measure q cb s).1.qasm =
      s.qasm ++ [OpRecord.measure [dictGet s.qubit_order q] [dictGet s.cbit_order cb]] ∧
    (SimulatorBackend.measure q cb s).1.operation_order = s.operation_order + 1 ∧
    (SimulatorBackend.reset q s).2 = none ∧
    (SimulatorBackend.reset q s).1.qasm =
      s.qasm ++ [OpRecord.reset [dictGet s.qubit_order q]] ∧
    (SimulatorBackend.reset q s).1.operation_order = s.operation_order + 1 :=
  ⟨rfl, rfl, rfl, rfl, rfl, rfl⟩

/-- Claim C1, counterexample: at a concrete listening, unconditioned state
the `cx` call appends the record with the source's fixed matrix, and that
matrix is NOT the controlled-NOT matrix with the control as the high-order
bit — the claim's characterization of the matrix is false. -/
theorem cx_matrix_not_control_high_counterexample :
    (SimulatorBackend.cx ("q", 0) ("q", 1) (SimulatorBackend.new_qreg "q" 2
      (SimulatorBackend.init []))).1.qasm =
      [OpRecord.gate 2 cxMatrix GateName.CX [some 0, some 1]] ∧
    cxMatrix ≠ cnotMatrixHigh :=
  ⟨rfl, cxMatrix_ne_cnotMatrixHigh⟩

/-- Claim C1, amended: for every `cx` call made while listening and with no
active condition, the backend appends exactly one gate record of arity 2
named "CX" whose matrix is the fixed 4×4 permutation matrix of the
controlled-NOT in the computational basis with the control as the LOW-order
bit, and whose qubit index list is [idx(control), idx(target)] in that
order. -/
theorem cx_appends_fixed_cnot_low_record (s : SimulatorBackend)
    (qubit0 qubit1 : BitRef) (hl : s.listen = true) (hc : s.creg = none) :
    (SimulatorBackend.cx qubit0 qubit1 s).2 = none ∧
    (SimulatorBackend.cx qubit0 qubit1 s).1.qasm = s.qasm ++
      [OpRecord.gate 2 cxMatrix GateName.CX
        [dictGet s.qubit_order qubit0, dictGet s.qubit_order qubit1]] ∧
    (SimulatorBackend.cx qubit0 qubit1 s).1.operation_order =
      s.operation_order + 1 ∧
    cxMatrix = cnotMatrixLow := by
  refine ⟨?_, ?_, ?_, cxMatrix_eq_cnotMatrixLow⟩ <;>
    simp [SimulatorBackend.cx, hl, hc]

/-- Witness for the amended C1 theorem at a concrete input. -/
theorem cx_appends_fixed_cnot_low_record_witness :
    ((SimulatorBackend.new_qreg "q" 2 (SimulatorBackend.init [])).listen = true ∧
     (SimulatorBackend.new_qreg "q" 2 (SimulatorBackend.init [])).creg = none) ∧
    ((SimulatorBackend.cx ("q", 0) ("q", 1) (SimulatorBackend.new_qreg "q" 2
       (SimulatorBackend.init []))).2 = none ∧
     (SimulatorBackend.cx ("q", 0) ("q", 1) (SimulatorBackend.new_qreg "q" 2
       (SimulatorBackend.init []))).1.qasm =
       (SimulatorBackend.new_qreg "q" 2 (SimulatorBackend.init [])).qasm ++
       [OpRecord.gate 2 cxMatrix GateName.CX
         [dictGet (SimulatorBackend.new_qreg "q" 2
            (SimulatorBackend.init [])).qubit_order ("q", 0),
          dictGet (SimulatorBackend.new_qreg "q" 2
            (SimulatorBackend.init [])).qubit_order ("q", 1)]] ∧
     (SimulatorBackend.cx ("q", 0) ("q", 1) (SimulatorBackend.new_qreg "q" 2
       (SimulatorBackend.init []))).1.operation_order =
       (SimulatorBackend.new_qreg "q" 2 (SimulatorBackend.init [])).operation_order + 1 ∧
     cxMatrix = cnotMatrixLow) :=
  ⟨⟨rfl, rfl⟩,
   cx_appends_fixed_cnot_low_record (SimulatorBackend.new_qreg "q" 2
     (SimulatorBackend.init [])) ("q", 0) ("q", 1) rfl rfl⟩

/-- Claim C4: while listening with a condition set, both `u` and `cx` fail
with the conditional-operation exception, and afterwards the operation count
and the operation-record sequence are unchanged. -/
theorem u_cx_condition_fail_artifact_unchanged (s : SimulatorBackend)
    (arg : ℝ × ℝ × ℝ) (q qubit0 qubit1 : BitRef) (c : String)
    (hl : s.listen = true) (hc : s.creg = some c) :
    (SimulatorBackend.u arg q s).2 =
      some (PyError.backendException "UnitarySimulator does not support if") ∧
    (SimulatorBackend.u arg q s).1.operation_order = s.operation_order ∧
    (SimulatorBackend.u arg q s).1.qasm = s.qasm ∧
    (SimulatorBackend.cx qubit0 qubit1 s).2 =
      some (PyError.backendException "UnitarySimulator does not support if") ∧
    (SimulatorBackend.cx qubit0 qubit1 s).1.operation_order = s.operation_order ∧
    (SimulatorBackend.cx qubit0 qubit1 s).1.qasm = s.qasm := by
  refine ⟨?_, ?_, ?_, ?_, ?_, ?_⟩ <;>
    simp [SimulatorBackend.u, SimulatorBackend.cx, hl, hc]

/-- Witness for C4 at a concrete input. -/
theorem u_cx_condition_fail_artifact_unchanged_witness :
    ((SimulatorBackend.set_condition "c" 1 (SimulatorBackend.init [])).listen = true ∧
     (SimulatorBackend.set_condition "c" 1 (SimulatorBackend.init [])).creg = some "c") ∧
    ((SimulatorBackend.u (0, 0, 0) ("q", 0)
       (SimulatorBackend.set_condition "c" 1 (SimulatorBackend.init []))).2 =
       some (PyError.backendException "UnitarySimulator does not support if") ∧
     (SimulatorBackend.u (0, 0, 0) ("q", 0)
       (SimulatorBackend.set_condition "c" 1 (SimulatorBackend.init []))).1.operation_order =
       (SimulatorBackend.set_condition "c" 1 (SimulatorBackend.init [])).operation_order ∧
     (SimulatorBackend.u (0, 0, 0) ("q", 0)
       (SimulatorBackend.set_condition "c" 1 (SimulatorBackend.init []))).1.qasm =
       (SimulatorBackend.set_condition "c" 1 (SimulatorBackend.init [])).qasm ∧
     (SimulatorBackend.cx ("q", 0) ("q", 1)
       (SimulatorBackend.set_condition "c" 1 (SimulatorBackend.init []))).2 =
       some (PyError.backendException "UnitarySimulator does not support if") ∧
     (SimulatorBackend.cx ("q", 0) ("q", 1)
       (SimulatorBackend.set_condition "c" 1 (SimulatorBackend.init []))).1.operation_order =
       (SimulatorBackend.set_condition "c" 1 (SimulatorBackend.init [])).operation_order ∧
     (SimulatorBackend.cx ("q", 0) ("q", 1)
       (SimulatorBackend.set_condition "c" 1 (SimulatorBackend.init []))).1.qasm =
       (SimulatorBackend.set_condition "c" 1 (SimulatorBackend.init [])).qasm) :=
  ⟨⟨rfl, rfl⟩,
   u_cx_condition_fail_artifact_unchanged
     (SimulatorBackend.set_condition "c" 1 (SimulatorBackend.init []))
     (0, 0, 0) ("q", 0) ("q", 0) ("q", 1) "c" rfl rfl⟩

/-- Claim C6: while listening and unconditioned, `u (θ, φ, λ)` appends
exactly one gate record of arity 1 whose matrix is
[[cos(θ/2), -e^{iλ}sin(θ/2)], [e^{iφ}sin(θ/2), e^{i(φ+λ)}cos(θ/2)]] and
increments the operation count by exactly 1; in particular the matrix at
(0, 0, 0) is the 2×2 identity [[1,0],[0,1]]. -/
theorem u_appends_unitary_record (s : SimulatorBackend)
    (arg : ℝ × ℝ × ℝ) (q : BitRef) (hl : s.listen = true) (hc : s.creg = none) :
    (SimulatorBackend.u arg q s).2 = none ∧
    (SimulatorBackend.u arg q s).1.qasm = s.qasm ++
      [OpRecord.gate 1 (uMatrix arg.1 arg.2.1 arg.2.2)
        (GateName.U arg.1 arg.2.1 arg.2.2) [dictGet s.qubit_order q]] ∧
    (SimulatorBackend.u arg q s).1.operation_order = s.operation_order + 1 ∧
    uMatrix arg.1 arg.2.1 arg.2.2 = specUMatrix arg.1 arg.2.1 arg.2.2 ∧
    uMatrix 0 0 0 = [[1, 0], [0, 1]] := by
  refine ⟨?_, ?_, ?_, uMatrix_eq_specUMatrix arg.1 arg.2.1 arg.2.2, uMatrix_zero⟩ <;>
    simp [SimulatorBackend.u, hl, hc]

/-- Witness for C6 at a concrete input. -/
theorem u_appends_unitary_record_witness :
    ((SimulatorBackend.new_qreg "q" 1 (SimulatorBackend.init [])).listen = true ∧
     (SimulatorBackend.new_qreg "q" 1 (SimulatorBackend.init [])).creg = none) ∧
    ((SimulatorBackend.u (0, 0, 0) ("q", 0) (SimulatorBackend.new_qreg "q" 1
       (SimulatorBackend.init []))).2 = none ∧
     (SimulatorBackend.u (0, 0, 0) ("q", 0) (SimulatorBackend.new_qreg "q" 1
       (SimulatorBackend.init []))).1.qasm =
       (SimulatorBackend.new_qreg "q" 1 (SimulatorBackend.init [])).qasm ++
       [OpRecord.gate 1 (uMatrix (0, 0, 0).1 (0, 0, 0).2.1 (0, 0, 0).2.2)
         (GateName.U (0, 0, 0).1 (0, 0, 0).2.1 (0, 0, 0).2.2)
         [dictGet (SimulatorBackend.new_qreg "q" 1
            (SimulatorBackend.init [])).qubit_order ("q", 0)]] ∧
     (SimulatorBackend.u (0, 0, 0) ("q", 0) (SimulatorBackend.new_qreg "q" 1
       (SimulatorBackend.init []))).1.operation_order =
       (SimulatorBackend.new_qreg "q" 1 (SimulatorBackend.init [])).operation_order + 1 ∧
     uMatrix (0, 0, 0).1 (0, 0, 0).2.1 (0, 0, 0).2.2 =
       specUMatrix (0, 0, 0).1 (0, 0, 0).2.1 (0, 0, 0).2.2 ∧
     uMatrix 0 0 0 = [[1, 0], [0, 1]]) :=
  ⟨⟨rfl, rfl⟩,
   u_appends_unitary_record (SimulatorBackend.new_qreg "q" 1
     (SimulatorBackend.init [])) (0, 0, 0) ("q", 0) rfl rfl⟩

/-- Claim C3, counterexample: `start_gate` called while listening and with an
active classical condition, for a gate name that is defined, non-opaque and
NOT in the basis set, does NOT fail — it returns with no exception and no
state change, contradicting "the call fails ... regardless of whether the
gate name is in the basis set". -/
theorem start_gate_nonbasis_condition_no_fail_counterexample :
    condNonBasisState.listen = true ∧
    condNonBasisState.creg = some "c" ∧
    SimulatorBackend.start_gate "g" [] [] condNonBasisState =
      (condNonBasisState, none) :=
  ⟨rfl, rfl, rfl⟩

/-- Claim C3, amended: while listening with an active classical condition,
`start_gate` fails with the conditional-operation exception exactly when the
gate name is in the basis set; when the name is not in the basis set (and
the gate is defined and non-opaque) the conditional guard does not apply and
the call returns with no error and no state change. -/
theorem start_gate_condition_guard_only_for_basis (s t : SimulatorBackend)
    (name : String) (args : List ℝ) (qubits : List BitRef) (gd : GateData)
    (hs1 : s.listen = true) (hs2 : name ∈ s.basis)
    (hs3 : s.creg.isSome = true)
    (ht1 : t.listen = true) (ht2 : name ∉ t.basis)
    (ht3 : t.creg.isSome = true)
    (ht4 : dictGet t.gates name = some gd) (ht5 : gd.opacity = false) :
    (SimulatorBackend.start_gate name args qubits s).2 =
      some (PyError.backendException "UnitarySimulator does not support if") ∧
    SimulatorBackend.start_gate name args qubits t = (t, none) := by
  constructor
  · simp [SimulatorBackend.start_gate, hs1, hs2, hs3]
  · simp [SimulatorBackend.start_gate, ht1, ht2, ht3, ht4, ht5]

/-- Witness for the amended C3 theorem at concrete inputs. -/
theorem start_gate_condition_guard_only_for_basis_witness :
    ((SimulatorBackend.set_condition "c" 1 (SimulatorBackend.init ["g"])).listen = true ∧
     "g" ∈ (SimulatorBackend.set_condition "c" 1
       (SimulatorBackend.init ["g"])).basis ∧
     (SimulatorBackend.set_condition "c" 1 (SimulatorBackend.init ["g"])).creg.isSome = true ∧
     condNonBasisState.listen = true ∧
     "g" ∉ condNonBasisState.basis ∧
     condNonBasisState.creg.isSome = true ∧
     dictGet condNonBasisState.gates "g" = some ⟨false⟩ ∧
     GateData.opacity ⟨false⟩ = false) ∧
    ((SimulatorBackend.start_gate "g" [] []
       (SimulatorBackend.set_condition "c" 1 (SimulatorBackend.init ["g"]))).2 =
       some (PyError.backendException "UnitarySimulator does not support if") ∧
     SimulatorBackend.start_gate "g" [] [] condNonBasisState =
       (condNonBasisState, none)) :=
  ⟨⟨rfl, by decide, rfl, rfl, by decide, rfl, rfl, rfl⟩,
   start_gate_condition_guard_only_for_basis
     (SimulatorBackend.set_condition "c" 1 (SimulatorBackend.init ["g"]))
     condNonBasisState "g" [] [] ⟨false⟩ rfl (by decide) rfl rfl (by decide) rfl rfl rfl⟩

/-- Claim C7: `start_gate` on a basis-set name while listening and
unconditioned transitions to MUTED(name); while muted, `u` and `cx` leave
the whole state (in particular the operation list and operation count)
unchanged; the matching `end_gate` returns the state to LISTENING, after
which primitive calls lower into the artifact again. -/
theorem mute_protocol_suppresses_and_resumes (s t : SimulatorBackend)
    (name : String) (args : List ℝ) (qubits : List BitRef)
    (arg : ℝ × ℝ × ℝ) (q qubit0 qubit1 : BitRef)
    (hl : s.listen = true) (hb : name ∈ s.basis) (hc : s.creg = none)
    (htl : t.listen = false) (htg : t.in_gate = name) (htc : t.creg = none) :
    SimulatorBackend.start_gate name args qubits s =
      ({ s with in_gate := name, listen := false }, none) ∧
    SimulatorBackend.u arg q t = (t, none) ∧
    SimulatorBackend.cx qubit0 qubit1 t = (t, none) ∧
    SimulatorBackend.end_gate name args qubits t =
      { t with in_gate := "", listen := true } ∧
    (SimulatorBackend.end_gate name args qubits t).listen = true ∧
    (SimulatorBackend.cx qubit0 qubit1
      (SimulatorBackend.end_gate name args qubits t)).1.qasm =
      t.qasm ++ [OpRecord.gate 2 cxMatrix GateName.CX
        [dictGet t.qubit_order qubit0, dictGet t.qubit_order qubit1]] := by
  refine ⟨?_, ?_, ?_, ?_, ?_, ?_⟩
  · simp [SimulatorBackend.start_gate, hl, hb, hc]
  · simp [SimulatorBackend.u, htl]
  · simp [SimulatorBackend.cx, htl]
  · simp [SimulatorBackend.end_gate, htg]
  · simp [SimulatorBackend.end_gate, htg]
  · simp [SimulatorBackend.end_gate, SimulatorBackend.cx, htg, htc]

/-- Witness for C7 at concrete inputs: the muted state is the one actually
produced by `start_gate "h"` from a listening backend with basis ["h"]. -/
theorem mute_protocol_suppresses_and_resumes_witness :
    ((SimulatorBackend.init ["h"]).listen = true ∧
     "h" ∈ (SimulatorBackend.init ["h"]).basis ∧
     (SimulatorBackend.init ["h"]).creg = none ∧
     (SimulatorBackend.start_gate "h" [] [] (SimulatorBackend.init ["h"])).1.listen = false ∧
     (SimulatorBackend.start_gate "h" [] [] (SimulatorBackend.init ["h"])).1.in_gate = "h" ∧
     (SimulatorBackend.start_gate "h" [] [] (SimulatorBackend.init ["h"])).1.creg = none) ∧
    (SimulatorBackend.start_gate "h" [] [] (SimulatorBackend.init ["h"]) =
      ({ SimulatorBackend.init ["h"] with in_gate := "h", listen := false }, none) ∧
     SimulatorBackend.u (0, 0, 0) ("q", 0)
       (SimulatorBackend.start_gate "h" [] [] (SimulatorBackend.init ["h"])).1 =
       ((SimulatorBackend.start_gate "h" [] [] (SimulatorBackend.init ["h"])).1, none) ∧
     SimulatorBackend.cx ("q", 0) ("q", 1)
       (SimulatorBackend.start_gate "h" [] [] (SimulatorBackend.init ["h"])).1 =
       ((SimulatorBackend.start_gate "h" [] [] (SimulatorBackend.init ["h"])).1, none) ∧
     SimulatorBackend.end_gate "h" [] []
       (SimulatorBackend.start_gate "h" [] [] (SimulatorBackend.init ["h"])).1 =
       { (SimulatorBackend.start_gate "h" [] [] (SimulatorBackend.init ["h"])).1 with
           in_gate := "", listen := true } ∧
     (SimulatorBackend.end_gate "h" [] []
       (SimulatorBackend.start_gate "h" [] [] (SimulatorBackend.init ["h"])).1).listen = true ∧
     (SimulatorBackend.cx ("q", 0) ("q", 1) (SimulatorBackend.end_gate "h" [] []
       (SimulatorBackend.start_gate "h" [] [] (SimulatorBackend.init ["h"])).1)).1.qasm =
       (SimulatorBackend.start_gate "h" [] [] (SimulatorBackend.init ["h"])).1.qasm ++
       [OpRecord.gate 2 cxMatrix GateName.CX
         [dictGet (SimulatorBackend.start_gate "h" [] []
            (SimulatorBackend.init ["h"])).1.qubit_order ("q", 0),
          dictGet (SimulatorBackend.start_gate "h" [] []
            (SimulatorBackend.init ["h"])).1.qubit_order ("q", 1)]]) :=
  ⟨⟨rfl, by decide, rfl, rfl, rfl, rfl⟩,
   mute_protocol_suppresses_and_resumes (SimulatorBackend.init ["h"])
     (SimulatorBackend.start_gate "h" [] [] (SimulatorBackend.init ["h"])).1
     "h" [] [] (0, 0, 0) ("q", 0) ("q", 0) ("q", 1) rfl (by decide) rfl rfl rfl rfl⟩

/-- Claim C9: a `u`, `cx`, `measure` or `reset` call (while listening and
unconditioned, where those preconditions apply) whose bit reference was
never registered raises no error: the record is appended with `none` in
place of the unresolved index and the operation count is still
incremented. -/
theorem unregistered_refs_append_none (s : SimulatorBackend)
    (arg : ℝ × ℝ × ℝ) (qubit0 qubit1 cb : BitRef)
    (hl : s.listen = true) (hc : s.creg = none)
    (hq0 : dictGet s.qubit_order qubit0 = none)
    (hq1 : dictGet s.qubit_order qubit1 = none)
    (hcb : dictGet s.cbit_order cb = none) :
    (SimulatorBackend.u arg qubit0 s).2 = none ∧
    (SimulatorBackend.u arg qubit0 s).1.qasm = s.qasm ++
      [OpRecord.gate 1 (uMatrix arg.1 arg.2.1 arg.2.2)
        (GateName.U arg.1 arg.2.1 arg.2.2) [none]] ∧
    (SimulatorBackend.u arg qubit0 s).1.operation_order = s.operation_order + 1 ∧
    (SimulatorBackend.cx qubit0 qubit1 s).2 = none ∧
    (SimulatorBackend.cx qubit0 qubit1 s).1.qasm = s.qasm ++
      [OpRecord.gate 2 cxMatrix GateName.CX [none, none]] ∧
    (SimulatorBackend.cx qubit0 qubit1 s).1.operation_order = s.operation_order + 1 ∧
    (SimulatorBackend.measure qubit0 cb s).2 = none ∧
    (SimulatorBackend.measure qubit0 cb s).1.qasm = s.qasm ++
      [OpRecord.measure [none] [none]] ∧
    (SimulatorBackend.measure qubit0 cb s).1.operation_order = s.operation_order + 1 ∧
    (SimulatorBackend.reset qubit0 s).2 = none ∧
    (SimulatorBackend.reset qubit0 s).1.qasm = s.qasm ++ [OpRecord.reset [none]] ∧
    (SimulatorBackend.reset qubit0 s).1.operation_order = s.operation_order + 1 := by
  refine ⟨?_, ?_, ?_, ?_, ?_, ?_, ?_, ?_, ?_, ?_, ?_, ?_⟩ <;>
    simp [SimulatorBackend.u, SimulatorBackend.cx, SimulatorBackend.measure,
      SimulatorBackend.reset, hl, hc, hq0, hq1, hcb]

/-- Witness for C9 at a concrete input: a fresh backend with no registers. -/
theorem unregistered_refs_append_none_witness :
    ((SimulatorBackend.init []).listen = true ∧
     (SimulatorBackend.init []).creg = none ∧
     dictGet (SimulatorBackend.init []).qubit_order ("x", 0) = none ∧
     dictGet (SimulatorBackend.init []).qubit_order ("y", 0) = none ∧
     dictGet (SimulatorBackend.init []).cbit_order ("z", 0) = none) ∧
    ((SimulatorBackend.u (0, 0, 0) ("x", 0) (SimulatorBackend.init [])).2 = none ∧
     (SimulatorBackend.u (0, 0, 0) ("x", 0) (SimulatorBackend.init [])).1.qasm =
       (SimulatorBackend.init []).qasm ++
       [OpRecord.gate 1 (uMatrix (0, 0, 0).1 (0, 0, 0).2.1 (0, 0, 0).2.2)
         (GateName.U (0, 0, 0).1 (0, 0, 0).2.1 (0, 0, 0).2.2) [none]] ∧
     (SimulatorBackend.u (0, 0, 0) ("x", 0) (SimulatorBackend.init [])).1.operation_order =
       (SimulatorBackend.init []).operation_order + 1 ∧
     (SimulatorBackend.cx ("x", 0) ("y", 0) (SimulatorBackend.init [])).2 = none ∧
     (SimulatorBackend.cx ("x", 0) ("y", 0) (SimulatorBackend.init [])).1.qasm =
       (SimulatorBackend.init []).qasm ++
       [OpRecord.gate 2 cxMatrix GateName.CX [none, none]] ∧
     (SimulatorBackend.cx ("x", 0) ("y", 0) (SimulatorBackend.init [])).1.operation_order =
       (SimulatorBackend.init []).operation_order + 1 ∧
     (SimulatorBackend.measure ("x", 0) ("z", 0) (SimulatorBackend.init [])).2 = none ∧
     (SimulatorBackend.measure ("x", 0) ("z", 0) (SimulatorBackend.init [])).1.qasm =
       (SimulatorBackend.init []).qasm ++ [OpRecord.measure [none] [none]] ∧
     (SimulatorBackend.measure ("x", 0) ("z", 0)
       (SimulatorBackend.init [])).1.operation_order =
       (SimulatorBackend.init []).operation_order + 1 ∧
     (SimulatorBackend.reset ("x", 0) (SimulatorBackend.init [])).2 = none ∧
     (SimulatorBackend.reset ("x", 0) (SimulatorBackend.init [])).1.qasm =
       (SimulatorBackend.init []).qasm ++ [OpRecord.reset [none]] ∧
     (SimulatorBackend.reset ("x", 0) (SimulatorBackend.init [])).1.operation_order =
       (SimulatorBackend.init []).operation_order + 1) :=
  ⟨⟨rfl, rfl, rfl, rfl, rfl⟩,
   unregistered_refs_append_none (SimulatorBackend.init [])
     (0, 0, 0) ("x", 0) ("y", 0) ("z", 0) rfl rfl rfl rfl rfl⟩

/-- Claim C10: `start_gate` while listening, with the name in the basis set
and an active condition, raises the conditional-operation exception only
after the state has transitioned to MUTED(name): `listen` is already false
and `in_gate` already holds the name when the exception propagates, and the
failure does not restore the listening state. -/
theorem start_gate_condition_fail_leaves_muted (s : SimulatorBackend)
    (name : String) (args : List ℝ) (qubits : List BitRef) (c : String)
    (hl : s.listen = true) (hb : name ∈ s.basis)
    (hc : s.creg = some c) :
    SimulatorBackend.start_gate name args qubits s =
      ({ s with in_gate := name, listen := false },
       some (PyError.backendException "UnitarySimulator does not support if")) := by
  simp [SimulatorBackend.start_gate, hl, hb, hc]

/-- Witness for C10 at a concrete input. -/
theorem start_gate_condition_fail_leaves_muted_witness :
    ((SimulatorBackend.set_condition "c" 1 (SimulatorBackend.init ["h"])).listen = true ∧
     "h" ∈ (SimulatorBackend.set_condition "c" 1
       (SimulatorBackend.init ["h"])).basis ∧
     (SimulatorBackend.set_condition "c" 1 (SimulatorBackend.init ["h"])).creg = some "c") ∧
    SimulatorBackend.start_gate "h" [] []
      (SimulatorBackend.set_condition "c" 1 (SimulatorBackend.init ["h"])) =
      ({ SimulatorBackend.set_condition "c" 1 (SimulatorBackend.init ["h"]) with
          in_gate := "h", listen := false },
       some (PyError.backendException "UnitarySimulator does not support if")) :=
  ⟨⟨rfl, by decide, rfl⟩,
   start_gate_condition_fail_leaves_muted
     (SimulatorBackend.set_condition "c" 1 (SimulatorBackend.init ["h"]))
     "h" [] [] "c" rfl (by decide) rfl⟩
